import Mathlib

/-
  Verification of the `imperative_timing` repository
  (source file: src/imperative_timing/timer.py).

  Shallow embedding conventions:
  * wall-clock instants and durations are integer ticks (`Int`; the
    source's float arithmetic uses only `+`, `-`, comparison and `max` /
    `min`, all of which restrict to `Int`); the monotonic clock value at
    each operation is passed in explicitly as `now`;
  * `sleep d` is modelled by advancing `now` by `d`; each function that
    sleeps reports the slept duration so that timing claims are statable;
  * Python exception *classes* used for classification are an abstract type
    `K` with decidable equality (`isinstance` against a tuple of classes is
    membership of the kind in a list);
  * Python's `None` is `Option.none`, truthiness of arbitrary values is
    modelled by `PyVal`;
  * mutation is state passing: methods take the object state and return the
    updated state together with the result.
-/

set_option autoImplicit false
set_option linter.unusedSectionVars false
set_option linter.unnecessarySeqFocus false

namespace ImperativeTiming

/-- Python's builtin `max` on two numbers, kept as an explicit
conditional so that concrete states evaluate by kernel reduction. -/
def pymax (a b : Int) : Int :=
  if a ≤ b then b else a

theorem pymax_eq_max (a b : Int) : pymax a b = max a b :=
  (max_def a b).symm

/-- Python's builtin `min` on two numbers, kept as an explicit
conditional so that concrete states evaluate by kernel reduction. -/
def pymin (a b : Int) : Int :=
  if a ≤ b then a else b

theorem pymin_eq_min (a b : Int) : pymin a b = min a b :=
  (min_def a b).symm

/-- State of `_Timer` (timer.py lines 24-47): fields `_last_start`,
`_last_timeout`, `_running`. -/
structure _Timer where
  _last_start : Int
  _last_timeout : Int
  _running : Bool
deriving DecidableEq

/-- `_Timer.start` (lines 32-34): sets `_running = True` and records the
current monotonic instant in `_last_start`. -/
def _Timer.start (tm : _Timer) (now : Int) : _Timer :=
  { tm with _running := true, _last_start := now }

/-- `_Timer.timeout` (lines 40-43): if not running return `_last_timeout`,
else `max(_last_timeout - monotonic() + _last_start, 0)`. -/
def _Timer.timeout (tm : _Timer) (now : Int) : Int :=
  if tm._running = false then tm._last_timeout
  else pymax (tm._last_timeout - now + tm._last_start) 0

/-- `_Timer.stop` (lines 36-38), statement order preserved from the source:
first `self._running = False`, then `self._last_timeout = self.timeout()`. -/
def _Timer.stop (tm : _Timer) (now : Int) : _Timer :=
  let tm1 := { tm with _running := false }
  { tm1 with _last_timeout := tm1.timeout now }

/-- `_Timer.__init__` (lines 25-30): `_last_start = 0`,
`_last_timeout = timeout`, `_running = False`, then `start()` if
`autostart`. -/
def _Timer.init (timeout : Int) (autostart : Bool) (now : Int) : _Timer :=
  let base : _Timer := { _last_start := 0, _last_timeout := timeout, _running := false }
  if autostart then base.start now else base

/-- A sequence of `start` / `stop` calls on a timer, each at some instant;
used to quantify over every state reachable through the public interface. -/
inductive TimerOp where
  | startOp (t : Int)
  | stopOp (t : Int)
deriving DecidableEq

/-- Replay a list of `start` / `stop` calls on a timer state. -/
def _Timer.applyOps (tm : _Timer) : List TimerOp → _Timer
  | [] => tm
  | .startOp t :: rest => (_Timer.start tm t).applyOps rest
  | .stopOp t :: rest => (_Timer.stop tm t).applyOps rest

section Wait

variable {K : Type} [DecidableEq K]

/-- State of `NormalWebDriverWait` (timer.py lines 50-177).  The `driver`
field is opaque glue and is omitted; probes are modelled by their per-round
outcomes.  `nse` plays the role of the `NoSuchElementException` class that
`__init__` always inserts into the ignored set. -/
structure NormalWebDriverWait (K : Type) where
  _timer : _Timer
  _min_poll_duration : Int
  _ignored_exceptions : List K
deriving DecidableEq

/-- `NormalWebDriverWait.__init__` (lines 56-71): the timer is constructed
with `autostart = eventually_expires`; the ignored set is
 `{NoSuchElementException}` together with the supplied exceptions (the
iterable branch; set semantics is membership in the list). -/
def NormalWebDriverWait.init (nse : K) (timeout : Int) (min_poll_duration : Int)
    (ignore_exceptions : Option (List K)) (eventually_expires : Bool) (now : Int) :
    NormalWebDriverWait K :=
  { _timer := _Timer.init timeout eventually_expires now
    _min_poll_duration := min_poll_duration
    _ignored_exceptions :=
      nse :: (match ignore_exceptions with | none => [] | some l => l) }

/-- `NormalWebDriverWait.timeout` property (lines 96-98). -/
def NormalWebDriverWait.timeoutProp (w : NormalWebDriverWait K) (now : Int) : Int :=
  w._timer.timeout now

/-- `NormalWebDriverWait.spawn` (lines 149-172): timeout is
`min(max_timeout, timer.timeout())` when `max_timeout` is given, else
`timer.timeout()`; unspecified `min_poll_duration` / `ignored_exceptions`
are copied; the new instance is built with
`eventually_expires = timer.running`. -/
def NormalWebDriverWait.spawn (nse : K) (w : NormalWebDriverWait K)
    (max_timeout : Option Int) (min_poll_duration : Option Int)
    (ignored_exceptions : Option (List K)) (now : Int) : NormalWebDriverWait K :=
  let timeout : Int :=
    match max_timeout with
    | none => w._timer.timeout now
    | some mt => pymin mt (w._timer.timeout now)
  let mpd : Int :=
    match min_poll_duration with
    | none => w._min_poll_duration
    | some p => p
  let ign : List K :=
    match ignored_exceptions with
    | none => w._ignored_exceptions
    | some l => l
  NormalWebDriverWait.init nse timeout mpd (some ign) w._timer._running now

end Wait

/-- A Python value as seen by `_until_predicate`: `None`, a `bool`, or any
other value (of an abstract type `A`). -/
inductive PyVal (A : Type) where
  | none
  | bool (b : Bool)
  | val (a : A)
deriving DecidableEq

/-- Python truthiness for `PyVal`, given truthiness of the abstract
values. -/
def pytruthy {A : Type} (atruthy : A → Bool) : PyVal A → Bool
  | .none => false
  | .bool b => b
  | .val a => atruthy a

/-- A raised (non-`Success`) Python exception: its class (`kind`) plus the
`screen` / `stacktrace` attributes read by `getattr(exc, ..., None)` in
`_until_predicate` (lines 116-117). -/
structure ExcInfo (K : Type) where
  kind : K
  screen : Option String
  stacktrace : Option String
deriving DecidableEq

/-- Mutable state threaded through the `while True` loop of
`_until_predicate` (lines 104-121): the clock plus the `screen` and
`stacktrace` locals. -/
structure LoopSt where
  now : Int
  screen : Option String
  stacktrace : Option String
deriving DecidableEq

/-- Observable events of one round of `_until_predicate`, listed in the
order the corresponding source statements execute. -/
inductive Ev where
  | probe
  | predCheck
  | sleepEv
  | deadlineCheck
deriving DecidableEq

/-- Result of one round of `_until_predicate`. -/
inductive RoundOut (A K : Type) where
  | ret (v : PyVal A)
  | raiseExc (e : ExcInfo K)
  | timeoutE (message : String) (screen stacktrace : Option String)
  | nextRound
deriving DecidableEq

section Poll

variable {A K : Type} [DecidableEq K]

/-- Tail of a `_until_predicate` round (lines 118-121): sleep out the
remainder of the per-round poll timer, then check the loop's deadline; on
`self._timer.timeout() == 0` break out and raise
`TimeoutException(message, screen, stacktrace)`. -/
def untilRoundTail (w : NormalWebDriverWait K) (message : String)
    (poll_timer : _Timer) (st : LoopSt) : RoundOut A K × LoopSt × List Ev :=
  let slept := poll_timer.timeout st.now
  let st1 := { st with now := st.now + slept }
  if w._timer.timeout st1.now = 0 then
    (.timeoutE message st1.screen st1.stacktrace, st1,
      [.probe, .predCheck, .sleepEv, .deadlineCheck])
  else
    (.nextRound, st1, [.probe, .predCheck, .sleepEv, .deadlineCheck])

/-- One round of `NormalWebDriverWait._until_predicate` (lines 107-121).
The probe invocation is modelled by its outcome `probeOut` (a value, or a
raised exception) together with its latency `probeLat`.  Mirrors the
source: fresh poll timer; invoke the probe; on a value, return it if the
predicate holds; on an ignored exception, return `True` if
`predicate(None)` holds, else record `screen` / `stacktrace`; a
non-ignored exception propagates; otherwise sleep and check the
deadline. -/
def untilRound (w : NormalWebDriverWait K) (predicate : PyVal A → Bool)
    (message : String) (probeOut : Except (ExcInfo K) (PyVal A))
    (probeLat : Int) (st : LoopSt) : RoundOut A K × LoopSt × List Ev :=
  let poll_timer := _Timer.init w._min_poll_duration true st.now
  let now1 := st.now + probeLat
  match probeOut with
  | .ok value =>
    if predicate value then
      (.ret value, { st with now := now1 }, [.probe, .predCheck])
    else
      untilRoundTail w message poll_timer { st with now := now1 }
  | .error exc =>
    if exc.kind ∈ w._ignored_exceptions then
      if predicate PyVal.none then
        (.ret (.bool true), { st with now := now1 }, [.probe, .predCheck])
      else
        untilRoundTail w message poll_timer
          { now := now1, screen := exc.screen, stacktrace := exc.stacktrace }
    else
      (.raiseExc exc, { st with now := now1 }, [.probe])

/-- Final outcome of `_until_predicate`. -/
inductive LoopOut (A K : Type) where
  | ret (v : PyVal A)
  | raiseExc (e : ExcInfo K)
  | timeoutE (message : String) (screen stacktrace : Option String)
deriving DecidableEq

/-- The `while True` loop of `_until_predicate`, fuelled (the source loop
need not terminate); `probeOuts n` / `probeLats n` give the outcome and
latency of the probe invocation in round `n`. -/
def untilLoop (w : NormalWebDriverWait K) (predicate : PyVal A → Bool)
    (message : String) (probeOuts : Nat → Except (ExcInfo K) (PyVal A))
    (probeLats : Nat → Int) :
    Nat → Nat → LoopSt → Option (LoopOut A K × LoopSt)
  | 0, _, _ => Option.none
  | fuel + 1, n, st =>
    match untilRound w predicate message (probeOuts n) (probeLats n) st with
    | (.ret v, st1, _) => some (.ret v, st1)
    | (.raiseExc e, st1, _) => some (.raiseExc e, st1)
    | (.timeoutE m scr stk, st1, _) => some (.timeoutE m scr stk, st1)
    | (.nextRound, st1, _) =>
      untilLoop w predicate message probeOuts probeLats fuel (n + 1) st1

/-- `NormalWebDriverWait.until` (lines 123-126): `_until_predicate` with the
truthiness predicate `bool`. -/
def untilRun (w : NormalWebDriverWait K) (atruthy : A → Bool) (message : String)
    (probeOuts : Nat → Except (ExcInfo K) (PyVal A)) (probeLats : Nat → Int)
    (fuel n : Nat) (st : LoopSt) : Option (LoopOut A K × LoopSt) :=
  untilLoop w (pytruthy atruthy) message probeOuts probeLats fuel n st

/-- `NormalWebDriverWait.until_not` (lines 128-131): `_until_predicate` with
predicate `lambda x: not x`. -/
def untilNotRun (w : NormalWebDriverWait K) (atruthy : A → Bool) (message : String)
    (probeOuts : Nat → Except (ExcInfo K) (PyVal A)) (probeLats : Nat → Int)
    (fuel n : Nat) (st : LoopSt) : Option (LoopOut A K × LoopSt) :=
  untilLoop w (fun x => ! pytruthy atruthy x) message probeOuts probeLats fuel n st

/-- The closure `_check_any` built by `NormalWebDriverWait._checker_any`
(lines 138-147), applied to the outcomes of the wrapped methods in one
round: scan the methods in order, `with suppress(ignored)` around each
call, return the first truthy result, else `None`. -/
def _check_any (ign : List K) (atruthy : A → Bool) :
    List (Except (ExcInfo K) (PyVal A)) → Except (ExcInfo K) (PyVal A)
  | [] => .ok PyVal.none
  | .error e :: rest =>
    if e.kind ∈ ign then _check_any ign atruthy rest else .error e
  | .ok v :: rest =>
    if pytruthy atruthy v then .ok v else _check_any ign atruthy rest

/-- An entry of the scan in `_check_any` that stops the scan: a method
call that returned a truthy value, or one that raised a non-ignored
exception.  Entries before the first stopper (ignored-kind raises and
falsy values) are skipped.  Used to state what `_check_any` computes. -/
def anyStopper (ign : List K) (atruthy : A → Bool)
    (r : Except (ExcInfo K) (PyVal A)) : Bool :=
  match r with
  | .ok v => pytruthy atruthy v
  | .error e => decide (e.kind ∉ ign)

/-- `NormalWebDriverWait.until_any` (lines 133-136):
`self.until(self._checker_any(methods))`; `methodOuts n` lists the outcomes
the wrapped methods would produce in round `n`. -/
def untilAnyRun (w : NormalWebDriverWait K) (atruthy : A → Bool)
    (methodOuts : Nat → List (Except (ExcInfo K) (PyVal A)))
    (probeLats : Nat → Int) (fuel n : Nat) (st : LoopSt) :
    Option (LoopOut A K × LoopSt) :=
  untilRun w atruthy ("")
    (fun m => _check_any w._ignored_exceptions atruthy (methodOuts m))
    probeLats fuel n st

end Poll

section Attempts

variable {K V : Type} [DecidableEq K] [DecidableEq V]

/-- State of `AttemptSeries` (timer.py lines 180-257).  Note the source's
`__next__` assigns the attribute name `timer_poll` (line 252) while
`__init__` and the `sleep` call use `_timer_poll` (lines 231, 251); both
attributes are therefore part of the object state and are modelled as
separate fields (`timer_poll` starts absent, it only exists after the
first `__next__`). -/
structure AttemptSeries (V : Type) where
  _timer_total : _Timer
  _min_poll_duration : Int
  _timer_poll : _Timer
  timer_poll : Option _Timer
  _stop_iteration : Bool
  result : Option V
deriving DecidableEq

/-- `AttemptSeries.__init__` (lines 228-233): a fresh autostarted total
timer with the given budget, a fresh autostarted zero poll timer,
`_stop_iteration = False`, `result = None`. -/
def AttemptSeries.init (timeout : Int) (min_poll_duration : Int) (now : Int) :
    AttemptSeries V :=
  { _timer_total := _Timer.init timeout true now
    _min_poll_duration := min_poll_duration
    _timer_poll := _Timer.init 0 true now
    timer_poll := Option.none
    _stop_iteration := false
    result := Option.none }

/-- `AttemptSeries.timeout` property (lines 235-237). -/
def AttemptSeries.timeoutProp (s : AttemptSeries V) (now : Int) : Int :=
  s._timer_total.timeout now

/-- `AttemptSeries.__iter__` (lines 239-241): resets `_stop_iteration`. -/
def AttemptSeries.__iter__ (s : AttemptSeries V) : AttemptSeries V :=
  { s with _stop_iteration := false }

/-- `AttemptSeries.success` (lines 243-245). -/
def AttemptSeries.success (s : AttemptSeries V) (result : Option V) :
    AttemptSeries V :=
  { s with _stop_iteration := true, result := result }

/-- State of `Attempt` (lines 260-307).  Python compares `Success.owner`
to the attempt with `is` (object identity); identity is modelled by a
numeric `id`, unique per created attempt.  The back reference `_series` is
passed explicitly to `__exit__` instead of being stored. -/
structure Attempt (K V : Type) where
  id : Nat
  _ignored_exceptions : List K
  result : Option V
deriving DecidableEq

/-- `Attempt.__init__` (lines 274-277). -/
def Attempt.init (id : Nat) : Attempt K V :=
  { id := id, _ignored_exceptions := [], result := Option.none }

/-- `Attempt.suppress` (lines 279-281). -/
def Attempt.suppress (a : Attempt K V) (exceptions : List K) : Attempt K V :=
  { a with _ignored_exceptions := exceptions }

/-- `Attempt.__enter__` (lines 291-293): resets `result` to `None` (the
returned success-signal capability is `Attempt._raise_success`). -/
def Attempt.__enter__ (a : Attempt K V) : Attempt K V :=
  { a with result := Option.none }

/-- A raised Python exception as classified by `Attempt.__exit__`: the
distinguished `Attempt.Success` outcome carrying its owner's identity and
result (lines 283-286), an ordinary classified exception, or a
`TimeoutException` (chained from its cause when raised by
`Attempt.__exit__` line 305). -/
inductive PyExc (K V : Type) where
  | success (owner : Nat) (result : Option V)
  | err (info : ExcInfo K)
  | timeoutExc (cause : Option (ExcInfo K))
deriving DecidableEq

/-- `Attempt._raise_success` (lines 288-289): raises
`Success(self, result)`. -/
def Attempt._raise_success (a : Attempt K V) (result : Option V) : PyExc K V :=
  .success a.id result

/-- What `Attempt.__exit__` does with the in-flight exception: return a
value to the interpreter (`True` suppresses the exception, `False` /
`None` lets it propagate), or itself raise a new exception. -/
inductive ExitRes (K V : Type) where
  | ret (value : Option Bool)
  | raisePy (exc : PyExc K V)
deriving DecidableEq

/-- `Attempt.__exit__` (lines 295-307).  A `Success` owned by another
attempt is propagated (`return False`); an owned `Success` is absorbed:
`self.result` and the owning series (via `success`) are set, `return
True`.  An exception of a suppressed kind raises
`TimeoutException from exc_val` when the series' deadline is exhausted and
is swallowed (`return True`) otherwise.  Anything else falls off the end
(`return None`).  The `TimeoutException` branch of the match mirrors that
a `TimeoutException` instance is neither a `Success` nor (in this model)
a member of the suppressed kinds. -/
def Attempt.__exit__ (a : Attempt K V) (s : AttemptSeries V)
    (exc_val : Option (PyExc K V)) (now : Int) :
    ExitRes K V × Attempt K V × AttemptSeries V :=
  match exc_val with
  | some (.success owner res) =>
    if owner = a.id then
      (.ret (some true), { a with result := res }, s.success res)
    else
      (.ret (some false), a, s)
  | some (.err e) =>
    if e.kind ∈ a._ignored_exceptions then
      if s.timeoutProp now ≤ 0 then
        (.raisePy (.timeoutExc (some e)), a, s)
      else
        (.ret (some true), a, s)
    else
      (.ret Option.none, a, s)
  | some (.timeoutExc _) => (.ret Option.none, a, s)
  | Option.none => (.ret Option.none, a, s)

/-- Result of `AttemptSeries.__next__`: `StopIteration`, a raised
`TimeoutException`, or a yielded fresh `Attempt`. -/
inductive NextRes (K V : Type) where
  | stopIter
  | timeoutE
  | yields (a : Attempt K V)
deriving DecidableEq

/-- `AttemptSeries.__next__` (lines 247-257).  Faithful to the source,
including the attribute slip on line 252: the freshly started poll timer is
stored in `timer_poll`, while the `sleep` on line 251 reads `_timer_poll`.
The third component reports the slept duration (`none` on the
`StopIteration` path, where no sleep is executed); `newId` is the identity
of the attempt created on line 257. -/
def AttemptSeries.__next__ (s : AttemptSeries V) (now : Int) (newId : Nat) :
    NextRes K V × AttemptSeries V × Option Int :=
  if s._stop_iteration then
    (.stopIter, s, Option.none)
  else
    let slept := s._timer_poll.timeout now
    let now1 := now + slept
    let s1 := { s with timer_poll := some (_Timer.init s._min_poll_duration true now1) }
    if s1.timeoutProp now1 ≤ 0 then
      (.timeoutE, s1, some slept)
    else
      (.yields (Attempt.init newId), s1, some slept)

/-- `NormalWebDriverWait.attempts` (lines 174-177):
`AttemptSeries(self.timeout, self.min_poll_duration)` — the series receives
the *value* of the parent's remaining timeout, from which `AttemptSeries.
__init__` builds a fresh timer. -/
def NormalWebDriverWait.attempts {K : Type} (w : NormalWebDriverWait K)
    (now : Int) : AttemptSeries V :=
  AttemptSeries.init (w._timer.timeout now) w._min_poll_duration now

/-- Exception propagation through a stack of live `with attempt` scopes,
innermost first: run `Attempt.__exit__` of each open attempt on the
in-flight exception; a truthy return swallows it (unwinding stops, shallower
scopes are not exited), a falsy return propagates it outward unchanged, and
an exception raised by `__exit__` itself replaces the in-flight exception.
Returns the updated stack and the exception escaping the outermost scope,
if any. -/
def unwind (now : Int) : PyExc K V → List (Attempt K V × AttemptSeries V) →
    List (Attempt K V × AttemptSeries V) × Option (PyExc K V)
  | exc, [] => ([], some exc)
  | exc, (a, s) :: rest =>
    match Attempt.__exit__ a s (some exc) now with
    | (.ret b, a1, s1) =>
      if b = some true then
        ((a1, s1) :: rest, Option.none)
      else
        let r := unwind now exc rest
        ((a1, s1) :: r.1, r.2)
    | (.raisePy e, a1, s1) =>
      let r := unwind now e rest
      ((a1, s1) :: r.1, r.2)

end Attempts

/-! ## Theorems -/

section TimerThms

/-- C7: the claim says a non-running timer reports the value frozen by the
last `stop()` — i.e. (spec 4.1) that `stop()` freezes the remaining time.
The code clears `_running` *before* reading `self.timeout()`, so the
assignment in `stop` stores `_last_timeout` back into itself: `stop` never
freezes the remaining time.  Concretely, a timer with budget 10 started at
instant 0 has 7 remaining at instant 3, yet after `stop()` at instant 3 it
reports the full budget 10, not 7. -/
theorem claim_C7_stop_is_noop_on_budget :
    (∀ (tm : _Timer) (now : Int), tm.stop now = { tm with _running := false })
    ∧ (_Timer.init 10 true 0).timeout 3 = 7
    ∧ ((_Timer.init 10 true 0).stop 3).timeout 5 = 10
    ∧ ¬ ((_Timer.init 10 true 0).stop 3).timeout 5 = 7 := by
  refine ⟨fun tm now => rfl, by decide, by decide, by decide⟩

end TimerThms

section AttemptThms

variable {K V : Type} [DecidableEq K] [DecidableEq V]

/-- Helper: `__next__` never updates the `_timer_poll` attribute that its
`sleep` reads; line 252 writes the distinct attribute `timer_poll`. -/
theorem __next___timer_poll_unchanged (s : AttemptSeries V) (now : Int) (i : Nat) :
    ((AttemptSeries.__next__ (K := K) s now i).2.1)._timer_poll = s._timer_poll := by
  unfold AttemptSeries.__next__
  by_cases h : s._stop_iteration = true <;> simp [h] <;> split <;> rfl

/-- C2: the claim says each `__next__` first sleeps out the remainder of
the per-round minimum-interval timer started in the previous round.  The
code intends this but line 252 assigns the fresh poll timer to the
attribute `timer_poll` while line 251 sleeps on `_timer_poll`, which is
never reassigned after `__init__` and always reads 0.  Concretely: a series
with `min_poll_duration = 1` created at instant 0 yields a first attempt
(sleeping 0), and a second `__next__` still at instant 0 again sleeps 0
instead of the claimed 1 tick — while the freshly started 1-tick timer sits
in the never-read `timer_poll` attribute.  (The timeout half of the claim
does hold: with budget 0 the first `__next__` raises `TimeoutException` and
yields nothing, see the final conjunct.) -/
theorem claim_C2_next_sleep_broken :
    (∀ (s : AttemptSeries Nat) (now : Int) (i : Nat),
      ((AttemptSeries.__next__ (K := Nat) s now i).2.1)._timer_poll = s._timer_poll)
    ∧ (AttemptSeries.__next__ (K := Nat) (AttemptSeries.init (V := Nat) 10 1 0) 0 0).1
        = .yields (Attempt.init 0)
    ∧ (AttemptSeries.__next__ (K := Nat) (AttemptSeries.init (V := Nat) 10 1 0) 0 0).2.2
        = some 0
    ∧ ((AttemptSeries.init (V := Nat) 10 1 0).__next__ (K := Nat) 0 0).2.1.timer_poll
        = some (_Timer.init 1 true 0)
    ∧ (AttemptSeries.__next__ (K := Nat)
        ((AttemptSeries.init (V := Nat) 10 1 0).__next__ (K := Nat) 0 0).2.1 0 1).2.2
        = some 0
    ∧ ¬ (AttemptSeries.__next__ (K := Nat)
        ((AttemptSeries.init (V := Nat) 10 1 0).__next__ (K := Nat) 0 0).2.1 0 1).2.2
        = some 1
    ∧ (AttemptSeries.__next__ (K := Nat) (AttemptSeries.init (V := Nat) 0 1 0) 0 0).1
        = .timeoutE := by
  refine ⟨fun s now i => __next___timer_poll_unchanged s now i,
    by decide, by decide, by decide, by decide, by decide, by decide⟩

/-- C10: a series on which `success()` has been invoked (directly, or by an
absorbed `Success` outcome in `Attempt.__exit__`) raises `StopIteration`
on the next `__next__` before any sleep or deadline check: the result is
`StopIteration` with the state untouched and no sleep executed, at every
instant `now` — in particular even when the series' deadline is already
exhausted, so no `TimeoutException` can follow a success. -/
theorem claim_C10_success_stops_iteration :
    (∀ (s : AttemptSeries V) (r : Option V) (now : Int) (i : Nat),
      AttemptSeries.__next__ (K := K) (s.success r) now i
        = (.stopIter, s.success r, Option.none))
    ∧ (∀ (a : Attempt K V) (s : AttemptSeries V) (res : Option V)
        (now now1 : Int) (i : Nat),
      AttemptSeries.__next__ (K := K)
          ((Attempt.__exit__ a s (some (a._raise_success res)) now).2.2) now1 i
        = (.stopIter, s.success res, Option.none)) := by
  constructor
  · intro s r now i
    simp [AttemptSeries.__next__, AttemptSeries.success]
  · intro a s res now now1 i
    simp [Attempt.__exit__, Attempt._raise_success, AttemptSeries.__next__,
      AttemptSeries.success]

end AttemptThms

section PollThms

variable {A K : Type} [DecidableEq K]

/-- Helper: a probe value satisfying the predicate is returned at once
(lines 110-112), before the sleep and before any deadline check. -/
theorem untilRound_ok_ret (w : NormalWebDriverWait K) (predicate : PyVal A → Bool)
    (message : String) (v : PyVal A) (probeLat : Int) (st : LoopSt)
    (h : predicate v = true) :
    untilRound w predicate message (.ok v) probeLat st
      = (.ret v, { st with now := st.now + probeLat }, [.probe, .predCheck]) := by
  simp [untilRound, h]

/-- Helper: a probe value failing the predicate falls through to the
sleep-and-deadline tail of the round. -/
theorem untilRound_ok_tail (w : NormalWebDriverWait K) (predicate : PyVal A → Bool)
    (message : String) (v : PyVal A) (probeLat : Int) (st : LoopSt)
    (h : predicate v = false) :
    untilRound w predicate message (.ok v) probeLat st
      = untilRoundTail w message (_Timer.init w._min_poll_duration true st.now)
          { st with now := st.now + probeLat } := by
  simp [untilRound, h]

/-- Helper: an ignored-kind exception with `predicate(None)` true returns
the literal `True` (line 115) without updating the diagnostic payload. -/
theorem untilRound_err_ret (w : NormalWebDriverWait K) (predicate : PyVal A → Bool)
    (message : String) (e : ExcInfo K) (probeLat : Int) (st : LoopSt)
    (hm : e.kind ∈ w._ignored_exceptions) (hp : predicate PyVal.none = true) :
    untilRound w predicate message (.error e) probeLat st
      = (.ret (.bool true), { st with now := st.now + probeLat },
          [.probe, .predCheck]) := by
  simp [untilRound, hm, hp]

/-- Helper: an ignored-kind exception with `predicate(None)` false records
the payload and falls through to the sleep-and-deadline tail. -/
theorem untilRound_err_tail (w : NormalWebDriverWait K) (predicate : PyVal A → Bool)
    (message : String) (e : ExcInfo K) (probeLat : Int) (st : LoopSt)
    (hm : e.kind ∈ w._ignored_exceptions) (hp : predicate PyVal.none = false) :
    untilRound w predicate message (.error e) probeLat st
      = untilRoundTail w message (_Timer.init w._min_poll_duration true st.now)
          { now := st.now + probeLat, screen := e.screen, stacktrace := e.stacktrace } := by
  simp [untilRound, hm, hp]

/-- Helper: a non-ignored exception propagates at once (line 113's
`except` clause does not catch it), with no predicate check, no sleep and
no deadline check. -/
theorem untilRound_err_raise (w : NormalWebDriverWait K) (predicate : PyVal A → Bool)
    (message : String) (e : ExcInfo K) (probeLat : Int) (st : LoopSt)
    (hm : e.kind ∉ w._ignored_exceptions) :
    untilRound w predicate message (.error e) probeLat st
      = (.raiseExc e, { st with now := st.now + probeLat }, [.probe]) := by
  simp [untilRound, hm]

/-- Helper: the round tail when the deadline check finds 0 remaining. -/
theorem untilRoundTail_break (w : NormalWebDriverWait K) (message : String)
    (pt : _Timer) (st : LoopSt)
    (h : w._timer.timeout (st.now + pt.timeout st.now) = 0) :
    untilRoundTail (A := A) w message pt st
      = (.timeoutE message st.screen st.stacktrace,
          { st with now := st.now + pt.timeout st.now },
          [.probe, .predCheck, .sleepEv, .deadlineCheck]) := by
  simp [untilRoundTail, h]

/-- Helper: the round tail when the deadline check finds time remaining. -/
theorem untilRoundTail_cont (w : NormalWebDriverWait K) (message : String)
    (pt : _Timer) (st : LoopSt)
    (h : ¬ w._timer.timeout (st.now + pt.timeout st.now) = 0) :
    untilRoundTail (A := A) w message pt st
      = (.nextRound, { st with now := st.now + pt.timeout st.now },
          [.probe, .predCheck, .sleepEv, .deadlineCheck]) := by
  simp [untilRoundTail, h]

/-- Helper: the short trace contains no deadline check. -/
theorem trace_count_short : List.count Ev.deadlineCheck [Ev.probe, Ev.predCheck] ≤ 1 := by
  decide

/-- Helper: the full trace contains exactly one deadline check. -/
theorem trace_count_full :
    List.count Ev.deadlineCheck [Ev.probe, Ev.predCheck, Ev.sleepEv, Ev.deadlineCheck] ≤ 1 := by
  decide

/-- Helper: the propagating trace contains no deadline check. -/
theorem trace_count_raise : List.count Ev.deadlineCheck [Ev.probe] ≤ 1 := by
  decide

/-- Helper: no deadline check occurs in the short trace. -/
theorem trace_not_mem_short : Ev.deadlineCheck ∉ ([Ev.probe, Ev.predCheck] : List Ev) := by
  decide

/-- Helper: no deadline check occurs in the propagating trace. -/
theorem trace_not_mem_raise : Ev.deadlineCheck ∉ ([Ev.probe] : List Ev) := by
  decide

/-- C4: in every round of `_until_predicate` the deadline is checked at
most once, and when it is checked, the round's event trace is exactly
probe invocation, predicate evaluation, interval sleep, deadline check —
never a check before the probe; every round starts with a probe
invocation, and a probe whose value satisfies the predicate returns even
when the budget is already exhausted at entry; a round that raises
`TimeoutException` does so exactly when the (single, post-sleep) check
found 0 remaining, with message and the diagnostic payload (`screen`,
`stacktrace`) of the last transient failure: the payload of this round's
ignored exception if one occurred, else the payload carried in from
earlier rounds. -/
theorem claim_C4_deadline_check_order :
    ∀ (w : NormalWebDriverWait K) (predicate : PyVal A → Bool) (message : String)
      (probeOut : Except (ExcInfo K) (PyVal A)) (probeLat : Int) (st : LoopSt),
      ((untilRound w predicate message probeOut probeLat st).2.2.count Ev.deadlineCheck ≤ 1)
      ∧ (Ev.deadlineCheck ∈ (untilRound w predicate message probeOut probeLat st).2.2 →
          (untilRound w predicate message probeOut probeLat st).2.2
            = [Ev.probe, Ev.predCheck, Ev.sleepEv, Ev.deadlineCheck])
      ∧ ((untilRound w predicate message probeOut probeLat st).2.2.head? = some Ev.probe)
      ∧ (∀ v, probeOut = .ok v → predicate v = true →
          (untilRound w predicate message probeOut probeLat st).1 = .ret v)
      ∧ (∀ m scr stk,
          (untilRound w predicate message probeOut probeLat st).1 = .timeoutE m scr stk →
          m = message
          ∧ w._timer.timeout (untilRound w predicate message probeOut probeLat st).2.1.now = 0
          ∧ scr = (untilRound w predicate message probeOut probeLat st).2.1.screen
          ∧ stk = (untilRound w predicate message probeOut probeLat st).2.1.stacktrace
          ∧ (∀ e, probeOut = .error e → e.kind ∈ w._ignored_exceptions →
              scr = e.screen ∧ stk = e.stacktrace)
          ∧ (∀ v, probeOut = .ok v → scr = st.screen ∧ stk = st.stacktrace)) := by
  intro w predicate message probeOut probeLat st
  cases probeOut with
  | ok v =>
    by_cases hp : predicate v = true
    · rw [untilRound_ok_ret w predicate message v probeLat st hp]
      refine ⟨trace_count_short, fun hmem => absurd hmem trace_not_mem_short, rfl, ?_, ?_⟩
      · intro v1 hv _
        cases hv
        rfl
      · intro m scr stk hcontra
        simp at hcontra
    · rw [untilRound_ok_tail w predicate message v probeLat st (by simpa using hp)]
      set pt := _Timer.init w._min_poll_duration true st.now with hpt
      set st1 : LoopSt := { st with now := st.now + probeLat } with hst1
      by_cases ht : w._timer.timeout (st1.now + pt.timeout st1.now) = 0
      · rw [untilRoundTail_break w message pt st1 ht]
        refine ⟨trace_count_full, fun _ => rfl, rfl, ?_, ?_⟩
        · intro v1 hv hp1
          cases hv
          exact absurd hp1 hp
        · intro m scr stk heq
          cases heq
          refine ⟨rfl, ht, rfl, rfl, ?_, ?_⟩
          · intro e he
            simp at he
          · intro v1 hv
            exact ⟨rfl, rfl⟩
      · rw [untilRoundTail_cont w message pt st1 ht]
        refine ⟨trace_count_full, fun _ => rfl, rfl, ?_, ?_⟩
        · intro v1 hv hp1
          cases hv
          exact absurd hp1 hp
        · intro m scr stk hcontra
          simp at hcontra
  | error e =>
    by_cases hm : e.kind ∈ w._ignored_exceptions
    · by_cases hp : predicate PyVal.none = true
      · rw [untilRound_err_ret w predicate message e probeLat st hm hp]
        refine ⟨trace_count_short, fun hmem => absurd hmem trace_not_mem_short, rfl, ?_, ?_⟩
        · intro v1 hv
          simp at hv
        · intro m scr stk hcontra
          simp at hcontra
      · rw [untilRound_err_tail w predicate message e probeLat st hm (by simpa using hp)]
        set pt := _Timer.init w._min_poll_duration true st.now with hpt
        set st1 : LoopSt :=
          { now := st.now + probeLat, screen := e.screen, stacktrace := e.stacktrace } with hst1
        by_cases ht : w._timer.timeout (st1.now + pt.timeout st1.now) = 0
        · rw [untilRoundTail_break w message pt st1 ht]
          refine ⟨trace_count_full, fun _ => rfl, rfl, ?_, ?_⟩
          · intro v1 hv
            simp at hv
          · intro m scr stk heq
            cases heq
            refine ⟨rfl, ht, rfl, rfl, ?_, ?_⟩
            · intro e1 he _
              cases he
              exact ⟨rfl, rfl⟩
            · intro v1 hv
              simp at hv
        · rw [untilRoundTail_cont w message pt st1 ht]
          refine ⟨trace_count_full, fun _ => rfl, rfl, ?_, ?_⟩
          · intro v1 hv
            simp at hv
          · intro m scr stk hcontra
            simp at hcontra
    · rw [untilRound_err_raise w predicate message e probeLat st hm]
      refine ⟨trace_count_raise, fun hmem => absurd hmem trace_not_mem_raise, rfl, ?_, ?_⟩
      · intro v1 hv
        simp at hv
      · intro m scr stk hcontra
        simp at hcontra

/-- Witness for C4 at a concrete input: budget already exhausted, probe
raises an ignored exception carrying a payload, predicate rejects `None`;
the round's trace is probe, predicate, sleep, deadline check, and the
raised timeout carries that payload. -/
theorem claim_C4_witness :
    (Ev.deadlineCheck ∈ (untilRound (NormalWebDriverWait.init (0 : Nat) 0 0 Option.none true 0)
        (fun (_ : PyVal Nat) => false) ("")
        (.error ⟨0, some ("s"), some ("t")⟩) 0 ⟨0, Option.none, Option.none⟩).2.2)
    ∧ (untilRound (NormalWebDriverWait.init (0 : Nat) 0 0 Option.none true 0)
        (fun (_ : PyVal Nat) => false) ("")
        (.error ⟨0, some ("s"), some ("t")⟩) 0 ⟨0, Option.none, Option.none⟩).2.2
      = [Ev.probe, Ev.predCheck, Ev.sleepEv, Ev.deadlineCheck] :=
  ⟨by decide,
    (claim_C4_deadline_check_order (NormalWebDriverWait.init (0 : Nat) 0 0 Option.none true 0)
      (fun (_ : PyVal Nat) => false) ("")
      (.error ⟨0, some ("s"), some ("t")⟩) 0 ⟨0, Option.none, Option.none⟩).2.1 (by decide)⟩

/-- C8: when the probe raises an exception of an ignored kind and the
predicate accepts the empty sentinel (`predicate(None)` true, as for the
`until_not` predicate `lambda x: not x`), the round returns the literal
`True` immediately — without sleeping out the minimum interval, without
checking the deadline (no sleep or deadline-check event) and without
touching the recorded payload. -/
theorem claim_C8_transient_failure_true_shim :
    (∀ (w : NormalWebDriverWait K) (predicate : PyVal A → Bool) (message : String)
       (e : ExcInfo K) (probeLat : Int) (st : LoopSt),
      e.kind ∈ w._ignored_exceptions → predicate PyVal.none = true →
      untilRound w predicate message (.error e) probeLat st
        = (.ret (.bool true), { st with now := st.now + probeLat },
            [Ev.probe, Ev.predCheck]))
    ∧ (∀ (atruthy : A → Bool), (fun x => ! pytruthy atruthy x) PyVal.none = true) := by
  refine ⟨?_, fun _ => rfl⟩
  intro w predicate message e probeLat st hm hp
  exact untilRound_err_ret w predicate message e probeLat st hm hp

/-- Witness for C8 at a concrete input: the `until_not`-style predicate
accepts `None`, the raised kind is ignored, and the round returns the
literal `True` with no sleep and no deadline check. -/
theorem claim_C8_witness :
    ((0 : Nat) ∈ (NormalWebDriverWait.init (0 : Nat) 9 2 Option.none true 0)._ignored_exceptions)
    ∧ ((fun x => ! pytruthy (fun (n : Nat) => decide (0 < n)) x) PyVal.none = true)
    ∧ untilRound (NormalWebDriverWait.init (0 : Nat) 9 2 Option.none true 0)
        (fun x => ! pytruthy (fun (n : Nat) => decide (0 < n)) x) ("")
        (.error ⟨0, some ("s"), Option.none⟩) 1 ⟨0, Option.none, Option.none⟩
      = (.ret (.bool true), ⟨1, Option.none, Option.none⟩, [Ev.probe, Ev.predCheck]) :=
  ⟨by decide, by decide,
    claim_C8_transient_failure_true_shim.1
      (NormalWebDriverWait.init (0 : Nat) 9 2 Option.none true 0)
      (fun x => ! pytruthy (fun (n : Nat) => decide (0 < n)) x) ("")
      ⟨0, some ("s"), Option.none⟩ 1 ⟨0, Option.none, Option.none⟩ (by decide) (by decide)⟩

/-- Helper: `_check_any` returns the first stopping entry of the round —
the first truthy value or the first non-ignored raise — and `None` when
every entry is skipped (ignored raise) or falsy. -/
theorem _check_any_eq_find (ign : List K) (atruthy : A → Bool) :
    ∀ outs : List (Except (ExcInfo K) (PyVal A)),
      _check_any ign atruthy outs =
        (match outs.find? (anyStopper ign atruthy) with
          | some (.ok v) => .ok v
          | some (.error e) => .error e
          | Option.none => .ok PyVal.none)
  | [] => by simp [_check_any]
  | .ok v :: rest => by
    by_cases h : pytruthy atruthy v = true
    · rw [List.find?_cons_of_pos _ (by simpa [anyStopper] using h)]
      simp [_check_any, h]
    · rw [List.find?_cons_of_neg _ (by simpa [anyStopper] using h)]
      rw [show _check_any ign atruthy (.ok v :: rest) = _check_any ign atruthy rest by
        simp [_check_any, h]]
      exact _check_any_eq_find ign atruthy rest
  | .error e :: rest => by
    by_cases h : e.kind ∈ ign
    · rw [List.find?_cons_of_neg _ (by simpa [anyStopper] using h)]
      rw [show _check_any ign atruthy (.error e :: rest) = _check_any ign atruthy rest by
        simp [_check_any, h]]
      exact _check_any_eq_find ign atruthy rest
    · rw [List.find?_cons_of_pos _ (by simpa [anyStopper] using h)]
      simp [_check_any, h]

/-- C9: the composite probe built by `until_any` scans the methods of a
round in order: an ignored-kind raise or a falsy value is skipped (that
probe only — the round continues), a truthy value stops the scan and is
the composite's result, a non-ignored raise stops the scan and propagates,
and when nothing stops the scan the composite returns `None`; equivalently
the composite's result is determined by the first stopping entry.  The
whole is delegated to the poll loop with the truthiness predicate, so the
value returned is the earliest-triggering probe's, deterministically by
probe order. -/
theorem claim_C9_until_any_first_truthy :
    (∀ (ign : List K) (atruthy : A → Bool) (outs : List (Except (ExcInfo K) (PyVal A))),
      _check_any ign atruthy outs =
        (match outs.find? (anyStopper ign atruthy) with
          | some (.ok v) => .ok v
          | some (.error e) => .error e
          | Option.none => .ok PyVal.none))
    ∧ (∀ (ign : List K) (atruthy : A → Bool) (e : ExcInfo K)
        (rest : List (Except (ExcInfo K) (PyVal A))),
        e.kind ∈ ign →
        _check_any ign atruthy (.error e :: rest) = _check_any ign atruthy rest)
    ∧ (∀ (ign : List K) (atruthy : A → Bool) (v : PyVal A)
        (rest : List (Except (ExcInfo K) (PyVal A))),
        pytruthy atruthy v = false →
        _check_any ign atruthy (.ok v :: rest) = _check_any ign atruthy rest)
    ∧ (∀ (ign : List K) (atruthy : A → Bool) (v : PyVal A)
        (rest : List (Except (ExcInfo K) (PyVal A))),
        pytruthy atruthy v = true →
        _check_any ign atruthy (.ok v :: rest) = .ok v)
    ∧ (∀ (ign : List K) (atruthy : A → Bool) (e : ExcInfo K)
        (rest : List (Except (ExcInfo K) (PyVal A))),
        e.kind ∉ ign →
        _check_any ign atruthy (.error e :: rest) = .error e)
    ∧ (∀ (w : NormalWebDriverWait K) (atruthy : A → Bool)
        (methodOuts : Nat → List (Except (ExcInfo K) (PyVal A)))
        (probeLats : Nat → Int) (fuel n : Nat) (st : LoopSt),
        untilAnyRun w atruthy methodOuts probeLats fuel n st
          = untilLoop w (pytruthy atruthy) ("")
              (fun m => _check_any w._ignored_exceptions atruthy (methodOuts m))
              probeLats fuel n st) := by
  refine ⟨fun ign atruthy outs => _check_any_eq_find ign atruthy outs,
    ?_, ?_, ?_, ?_, fun w atruthy methodOuts probeLats fuel n st => rfl⟩
  · intro ign atruthy e rest h
    simp [_check_any, h]
  · intro ign atruthy v rest h
    simp [_check_any, h]
  · intro ign atruthy v rest h
    simp [_check_any, h]
  · intro ign atruthy e rest h
    simp [_check_any, h]

/-- Witness for C9 at a concrete input: the first method raises an ignored
kind (skipped), the second returns a falsy value (skipped), the third
returns the first truthy value `5`, the fourth is never reached. -/
theorem claim_C9_witness :
    ((3 : Nat) ∈ ([3] : List Nat))
    ∧ (pytruthy (fun (n : Nat) => decide (0 < n)) (.val 0) = false)
    ∧ _check_any ([3] : List Nat) (fun (n : Nat) => decide (0 < n))
        [.error ⟨3, Option.none, Option.none⟩, .ok (.val 0), .ok (.val 5),
          .error ⟨9, Option.none, Option.none⟩]
      = _check_any ([3] : List Nat) (fun (n : Nat) => decide (0 < n))
        [.ok (.val 0), .ok (.val 5), .error ⟨9, Option.none, Option.none⟩]
    ∧ _check_any ([3] : List Nat) (fun (n : Nat) => decide (0 < n))
        [.ok (.val 5), .error ⟨9, Option.none, Option.none⟩]
      = .ok (.val 5) :=
  ⟨by decide, by decide,
    claim_C9_until_any_first_truthy.2.1 ([3] : List Nat)
      (fun (n : Nat) => decide (0 < n)) ⟨3, Option.none, Option.none⟩
      [.ok (.val 0), .ok (.val 5), .error ⟨9, Option.none, Option.none⟩] (by decide),
    claim_C9_until_any_first_truthy.2.2.2.1 ([3] : List Nat)
      (fun (n : Nat) => decide (0 < n)) (.val 5)
      [.error ⟨9, Option.none, Option.none⟩] (by decide)⟩

end PollThms

section AttributionThms

variable {K V : Type} [DecidableEq K] [DecidableEq V]

/-- Helper: unwinding a `Success` outcome through a stack of open scopes
(innermost first) whose deeper attempts all have identities different from
the outcome's owner leaves the deeper pairs untouched, absorbs the outcome
at the owner (setting its result and stopping its series), leaves the
shallower pairs untouched, and lets nothing escape. -/
theorem unwind_success_absorbed (res : Option V) (now : Int) (ak : Attempt K V)
    (sk : AttemptSeries V) (shallow : List (Attempt K V × AttemptSeries V)) :
    ∀ deep : List (Attempt K V × AttemptSeries V),
      (∀ p ∈ deep, p.1.id ≠ ak.id) →
      unwind now (.success ak.id res) (deep ++ (ak, sk) :: shallow)
        = (deep ++ ({ ak with result := res }, sk.success res) :: shallow,
            Option.none) := by
  intro deep
  induction deep with
  | nil =>
    intro _
    simp [unwind, Attempt.__exit__]
  | cons p deep ih =>
    intro h
    obtain ⟨a, s⟩ := p
    have hne : a.id ≠ ak.id := h (a, s) (List.mem_cons_self _ _)
    have ih1 := ih (fun q hq => h q (List.mem_cons_of_mem _ hq))
    simp only [List.cons_append]
    simp [unwind, Attempt.__exit__, Ne.symm hne, ih1]

/-- C1: with any number of nested series (covering two or three levels),
when the success-signal capability of the attempt at depth `k` raises its
`Success` outcome, unwinding through the stack of still-open deeper
attempts — all of different identity — leaves every deeper pair untouched
(in particular their `result` stays absent if it was), absorbs the outcome
exactly at the owner, setting the owner's `result` and its series' `result`
to the carried value and stopping that series, and never reaches the
shallower scopes, which stay live and undisturbed; pointwise, `__exit__`
on a `Success` owned by a different attempt returns `False` and changes
nothing, while on its own `Success` it returns `True` and commits the
value. -/
theorem claim_C1_success_attribution :
    (∀ (deep : List (Attempt K V × AttemptSeries V)) (ak : Attempt K V)
       (sk : AttemptSeries V) (shallow : List (Attempt K V × AttemptSeries V))
       (res : Option V) (now : Int),
      (∀ p ∈ deep, p.1.id ≠ ak.id) →
      unwind now (ak._raise_success res) (deep ++ (ak, sk) :: shallow)
        = (deep ++ ({ ak with result := res }, sk.success res) :: shallow,
            Option.none))
    ∧ (∀ (a : Attempt K V) (s : AttemptSeries V) (owner : Nat) (res : Option V)
        (now : Int), owner ≠ a.id →
        Attempt.__exit__ a s (some (.success owner res)) now
          = (.ret (some false), a, s))
    ∧ (∀ (a : Attempt K V) (s : AttemptSeries V) (res : Option V) (now : Int),
        Attempt.__exit__ a s (some (.success a.id res)) now
          = (.ret (some true), { a with result := res }, s.success res)) := by
  refine ⟨?_, ?_, ?_⟩
  · intro deep ak sk shallow res now h
    exact unwind_success_absorbed res now ak sk shallow deep h
  · intro a s owner res now h
    simp [Attempt.__exit__, h]
  · intro a s res now
    simp [Attempt.__exit__]

/-- Witness for C1 at a concrete three-level nesting: the `Success` raised
by the middle attempt (identity 1) passes through the innermost open
attempt (identity 2) untouched, is absorbed at identity 1 — committing 42
to that attempt and its series and stopping the series — and never reaches
the outermost pair (identity 0). -/
theorem claim_C1_witness :
    (∀ p ∈ ([(Attempt.init 2, AttemptSeries.init 5 0 0)] :
        List (Attempt Nat Nat × AttemptSeries Nat)),
      p.1.id ≠ (Attempt.init (K := Nat) (V := Nat) 1).id)
    ∧ unwind 0 ((Attempt.init (K := Nat) (V := Nat) 1)._raise_success (some 42))
        (([(Attempt.init 2, AttemptSeries.init 5 0 0)] :
            List (Attempt Nat Nat × AttemptSeries Nat))
          ++ (Attempt.init 1, AttemptSeries.init 7 0 0)
            :: [(Attempt.init 0, AttemptSeries.init 9 0 0)])
      = (([(Attempt.init 2, AttemptSeries.init 5 0 0)] :
            List (Attempt Nat Nat × AttemptSeries Nat))
          ++ ({ (Attempt.init 1 : Attempt Nat Nat) with result := some 42 },
              (AttemptSeries.init 7 0 0).success (some 42))
            :: [(Attempt.init 0, AttemptSeries.init 9 0 0)], Option.none) :=
  ⟨by decide,
    claim_C1_success_attribution.1
      ([(Attempt.init 2, AttemptSeries.init 5 0 0)] :
        List (Attempt Nat Nat × AttemptSeries Nat))
      (Attempt.init 1) (AttemptSeries.init 7 0 0)
      [(Attempt.init 0, AttemptSeries.init 9 0 0)] (some 42) 0 (by decide)⟩

/-- C5: `Attempt.__exit__` on an exception whose kind is in the attempt's
suppressed set raises `TimeoutException` chained from that exception when
the owning series' deadline is exhausted (remaining ≤ 0), leaving attempt
and series unchanged (the new exception propagates to the caller); with
budget remaining it swallows the exception (`return True`), leaving the
attempt and the series unchanged — in particular the series stays live, so
iteration advances to the next round; an exception whose kind is not
suppressed (and which is no `Success`) falls through (`return None`) and
propagates unmodified. -/
theorem claim_C5_suppressed_exception_handling :
    ∀ (a : Attempt K V) (s : AttemptSeries V) (e : ExcInfo K) (now : Int),
      (e.kind ∈ a._ignored_exceptions → s.timeoutProp now ≤ 0 →
        Attempt.__exit__ a s (some (.err e)) now
          = (.raisePy (.timeoutExc (some e)), a, s))
      ∧ (e.kind ∈ a._ignored_exceptions → 0 < s.timeoutProp now →
        Attempt.__exit__ a s (some (.err e)) now = (.ret (some true), a, s))
      ∧ (e.kind ∉ a._ignored_exceptions →
        Attempt.__exit__ a s (some (.err e)) now = (.ret Option.none, a, s)) := by
  intro a s e now
  refine ⟨?_, ?_, ?_⟩
  · intro hm ht
    simp [Attempt.__exit__, hm, ht]
  · intro hm ht
    simp [Attempt.__exit__, hm, not_le.mpr ht]
  · intro hm
    simp [Attempt.__exit__, hm]

/-- Witness for C5 at concrete inputs: with kind 7 suppressed, an
exhausted series (budget 0) converts the suppressed exception into a
chained `TimeoutException`; a series with budget 5 swallows it; a
non-suppressed kind 9 falls through. -/
theorem claim_C5_witness :
    ((7 : Nat) ∈ ((Attempt.init (K := Nat) (V := Nat) 0).suppress [7])._ignored_exceptions)
    ∧ ((AttemptSeries.init (V := Nat) 0 0 0).timeoutProp 0 ≤ 0)
    ∧ (0 < (AttemptSeries.init (V := Nat) 5 0 0).timeoutProp 0)
    ∧ ((9 : Nat) ∉ ((Attempt.init (K := Nat) (V := Nat) 0).suppress [7])._ignored_exceptions)
    ∧ Attempt.__exit__ ((Attempt.init (K := Nat) (V := Nat) 0).suppress [7]) (AttemptSeries.init (V := Nat) 0 0 0)
        (some (.err ⟨7, Option.none, Option.none⟩)) 0
      = (.raisePy (.timeoutExc (some ⟨7, Option.none, Option.none⟩)),
          (Attempt.init (K := Nat) (V := Nat) 0).suppress [7], AttemptSeries.init (V := Nat) 0 0 0)
    ∧ Attempt.__exit__ ((Attempt.init (K := Nat) (V := Nat) 0).suppress [7]) (AttemptSeries.init (V := Nat) 5 0 0)
        (some (.err ⟨7, Option.none, Option.none⟩)) 0
      = (.ret (some true), (Attempt.init (K := Nat) (V := Nat) 0).suppress [7], AttemptSeries.init (V := Nat) 5 0 0)
    ∧ Attempt.__exit__ ((Attempt.init (K := Nat) (V := Nat) 0).suppress [7]) (AttemptSeries.init (V := Nat) 5 0 0)
        (some (.err ⟨9, Option.none, Option.none⟩)) 0
      = ((.ret Option.none : ExitRes Nat Nat),
          (Attempt.init (K := Nat) (V := Nat) 0).suppress [7], AttemptSeries.init (V := Nat) 5 0 0) :=
  ⟨by decide, by decide, by decide, by decide,
    (claim_C5_suppressed_exception_handling ((Attempt.init (K := Nat) (V := Nat) 0).suppress [7])
      (AttemptSeries.init (V := Nat) 0 0 0) ⟨7, Option.none, Option.none⟩ 0).1 (by decide) (by decide),
    (claim_C5_suppressed_exception_handling ((Attempt.init (K := Nat) (V := Nat) 0).suppress [7])
      (AttemptSeries.init (V := Nat) 5 0 0) ⟨7, Option.none, Option.none⟩ 0).2.1 (by decide) (by decide),
    (claim_C5_suppressed_exception_handling ((Attempt.init (K := Nat) (V := Nat) 0).suppress [7])
      (AttemptSeries.init (V := Nat) 5 0 0) ⟨9, Option.none, Option.none⟩ 0).2.2 (by decide)⟩

end AttributionThms

section WaitThms

variable {K V : Type} [DecidableEq K] [DecidableEq V]

/-- Helper: a running timer never reports a negative remaining time. -/
theorem _Timer_running_timeout_nonneg (tm : _Timer) (now : Int)
    (h : tm._running = true) : 0 ≤ tm.timeout now := by
  simp [_Timer.timeout, h, pymax]
  split <;> omega

/-- Helper: what a freshly constructed timer reports at its construction
instant. -/
theorem _Timer_init_timeout_self (B : Int) (auto : Bool) (now : Int) :
    (_Timer.init B auto now).timeout now = if auto then pymax B 0 else B := by
  cases auto <;> simp [_Timer.init, _Timer.start, _Timer.timeout, pymax]

/-- C3 (amended; the claim as stated fails, see `claim_C3_counterexample`):
`attempts()` builds its series around a *fresh* `_Timer` seeded with the
parent's remaining-timeout value at call time — there is no shared
deadline object.  The parent's deadline is debited only by its own clock:
when the parent's timer is running, an observation `d` ticks later reads
`max(previous - d, 0)` — wall-clock debit covering whatever the series'
rounds consumed — and when the parent's timer is stopped its reading is
unchanged no matter what the series does. -/
theorem claim_C3_attempts_fresh_timer :
    (∀ (w : NormalWebDriverWait K) (now : Int),
      (NormalWebDriverWait.attempts (V := V) w now)._timer_total
        = _Timer.init (w._timer.timeout now) true now)
    ∧ (∀ (w : NormalWebDriverWait K) (now d : Int), 0 ≤ d →
        w._timer._running = false →
        w._timer.timeout (now + d) = w._timer.timeout now)
    ∧ (∀ (w : NormalWebDriverWait K) (now d : Int), 0 ≤ d →
        w._timer._running = true →
        w._timer.timeout (now + d) = max (w._timer.timeout now - d) 0) := by
  refine ⟨fun w now => rfl, ?_, ?_⟩
  · intro w now d _ hr
    simp [_Timer.timeout, hr]
  · intro w now d hd hr
    simp only [_Timer.timeout, hr]
    rw [pymax_eq_max, pymax_eq_max]
    simp only [Bool.true_eq_false, if_false]
    omega

/-- Witness for C3's amended theorem at concrete inputs: a stopped parent
(budget 10) reads 10 both at instant 0 and at instant 3; a running parent
reads `max(10 - 3, 0)` at instant 3. -/
theorem claim_C3_witness :
    ((0 : Int) ≤ 3)
    ∧ ((NormalWebDriverWait.init (0 : Nat) 10 0 Option.none false 0)._timer._running = false)
    ∧ ((NormalWebDriverWait.init (0 : Nat) 10 0 Option.none true 0)._timer._running = true)
    ∧ (NormalWebDriverWait.init (0 : Nat) 10 0 Option.none false 0)._timer.timeout (0 + 3)
      = (NormalWebDriverWait.init (0 : Nat) 10 0 Option.none false 0)._timer.timeout 0
    ∧ (NormalWebDriverWait.init (0 : Nat) 10 0 Option.none true 0)._timer.timeout (0 + 3)
      = max ((NormalWebDriverWait.init (0 : Nat) 10 0 Option.none true 0)._timer.timeout 0 - 3) 0 :=
  ⟨by decide, by decide, by decide,
    (claim_C3_attempts_fresh_timer (K := Nat) (V := Nat)).2.1
      (NormalWebDriverWait.init (0 : Nat) 10 0 Option.none false 0) 0 3
      (by decide) (by decide),
    (claim_C3_attempts_fresh_timer (K := Nat) (V := Nat)).2.2
      (NormalWebDriverWait.init (0 : Nat) 10 0 Option.none true 0) 0 3
      (by decide) (by decide)⟩

/-- C3 counterexample: a parent constructed with `eventually_expires=False`
(its timer not running, remaining 10) calls `attempts()`; the series'
rounds run from instant 0 to instant 3 and a `Success(42)` is absorbed at
instant 3 — yet the parent still reads 10, not `10 - 3`: time consumed by
the series is *not* debited from the caller's deadline, because
`attempts()` passes the float value of the remaining timeout into a fresh
`_Timer` instead of sharing the deadline. -/
theorem claim_C3_counterexample :
    ((Attempt.init (K := Nat) (V := Nat) 0).__exit__
        (((NormalWebDriverWait.init (0 : Nat) 10 0 Option.none false 0).attempts
            (V := Nat) 0).__next__ (K := Nat) 0 0).2.1
        (some (.success 0 (some 42))) 3).2.2.result = some 42
    ∧ (NormalWebDriverWait.init (0 : Nat) 10 0 Option.none false 0)._timer.timeout 3 = 10
    ∧ ¬ ((NormalWebDriverWait.init (0 : Nat) 10 0 Option.none false 0)._timer.timeout 3
        = (NormalWebDriverWait.init (0 : Nat) 10 0 Option.none false 0)._timer.timeout 0 - 3) :=
  ⟨by decide, by decide, by decide⟩

/-- C6 (amended — the equality needs a nonnegative requested budget `X`,
see `claim_C6_counterexample`): at spawn time the spawned instance's
remaining timeout equals `min(X, parent remaining)` when `max_timeout=X ≥ 0`
is given and equals the parent's remaining when omitted; the spawned
running state mirrors the parent's at spawn time; an unspecified
`min_poll_duration` is copied, and unspecified `ignored_exceptions` are
copied as a set (membership-equal, since `__init__` re-adds the
always-present `NoSuchElementException`). -/
theorem claim_C6_spawn_capping :
    ∀ (nse : K) (w : NormalWebDriverWait K) (X now : Int), 0 ≤ X →
      ((NormalWebDriverWait.spawn nse w (some X) Option.none Option.none now)._timer.timeout now
        = min X (w._timer.timeout now))
      ∧ ((NormalWebDriverWait.spawn nse w Option.none Option.none Option.none now)._timer.timeout now
        = w._timer.timeout now)
      ∧ ((NormalWebDriverWait.spawn nse w (some X) Option.none Option.none now)._timer._running
        = w._timer._running)
      ∧ ((NormalWebDriverWait.spawn nse w (some X) Option.none Option.none now)._min_poll_duration
        = w._min_poll_duration)
      ∧ (nse ∈ w._ignored_exceptions → ∀ k : K,
          k ∈ (NormalWebDriverWait.spawn nse w (some X) Option.none Option.none now)._ignored_exceptions
            ↔ k ∈ w._ignored_exceptions) := by
  intro nse w X now hX
  refine ⟨?_, ?_, ?_, rfl, ?_⟩
  · cases hr : w._timer._running with
    | false =>
      simp [NormalWebDriverWait.spawn, NormalWebDriverWait.init, _Timer.init,
        _Timer.start, _Timer.timeout, hr, pymin, pymax, min_def]
    | true =>
      simp [NormalWebDriverWait.spawn, NormalWebDriverWait.init, _Timer.init,
        _Timer.start, _Timer.timeout, hr, pymin, pymax, min_def]
      split_ifs <;> omega
  · cases hr : w._timer._running with
    | false =>
      simp [NormalWebDriverWait.spawn, NormalWebDriverWait.init, _Timer.init,
        _Timer.start, _Timer.timeout, hr, pymax]
    | true =>
      simp [NormalWebDriverWait.spawn, NormalWebDriverWait.init, _Timer.init,
        _Timer.start, _Timer.timeout, hr, pymax]
      split_ifs <;> omega
  · cases hr : w._timer._running with
    | false =>
      simp [NormalWebDriverWait.spawn, NormalWebDriverWait.init, hr, _Timer.init]
    | true =>
      simp [NormalWebDriverWait.spawn, NormalWebDriverWait.init, hr, _Timer.init,
        _Timer.start]
  · intro hnse k
    simp only [NormalWebDriverWait.spawn, NormalWebDriverWait.init, List.mem_cons]
    exact ⟨fun h => h.elim (fun hk => hk ▸ hnse) id, Or.inr⟩

/-- Witness for C6's amended theorem at concrete inputs: a running parent
with remaining 10, spawn with `max_timeout = 4`: remaining `min 4 10`,
running state, poll duration and ignored kinds all as claimed. -/
theorem claim_C6_witness :
    ((0 : Int) ≤ 4)
    ∧ ((0 : Nat) ∈ (NormalWebDriverWait.init (0 : Nat) 10 2 (some [5]) true 0)._ignored_exceptions)
    ∧ ((NormalWebDriverWait.spawn 0 (NormalWebDriverWait.init (0 : Nat) 10 2 (some [5]) true 0)
          (some 4) Option.none Option.none 0)._timer.timeout 0
        = min 4 ((NormalWebDriverWait.init (0 : Nat) 10 2 (some [5]) true 0)._timer.timeout 0))
    ∧ ((NormalWebDriverWait.spawn 0 (NormalWebDriverWait.init (0 : Nat) 10 2 (some [5]) true 0)
          (some 4) Option.none Option.none 0)._timer._running
        = (NormalWebDriverWait.init (0 : Nat) 10 2 (some [5]) true 0)._timer._running)
    ∧ ((NormalWebDriverWait.spawn 0 (NormalWebDriverWait.init (0 : Nat) 10 2 (some [5]) true 0)
          (some 4) Option.none Option.none 0)._min_poll_duration
        = (NormalWebDriverWait.init (0 : Nat) 10 2 (some [5]) true 0)._min_poll_duration)
    ∧ ((5 : Nat) ∈ (NormalWebDriverWait.spawn 0 (NormalWebDriverWait.init (0 : Nat) 10 2 (some [5]) true 0)
          (some 4) Option.none Option.none 0)._ignored_exceptions
        ↔ (5 : Nat) ∈ (NormalWebDriverWait.init (0 : Nat) 10 2 (some [5]) true 0)._ignored_exceptions) :=
  ⟨by decide, by decide,
    (claim_C6_spawn_capping 0 (NormalWebDriverWait.init (0 : Nat) 10 2 (some [5]) true 0)
      4 0 (by decide)).1,
    (claim_C6_spawn_capping 0 (NormalWebDriverWait.init (0 : Nat) 10 2 (some [5]) true 0)
      4 0 (by decide)).2.2.1,
    (claim_C6_spawn_capping 0 (NormalWebDriverWait.init (0 : Nat) 10 2 (some [5]) true 0)
      4 0 (by decide)).2.2.2.1,
    (claim_C6_spawn_capping 0 (NormalWebDriverWait.init (0 : Nat) 10 2 (some [5]) true 0)
      4 0 (by decide)).2.2.2.2 (by decide) 5⟩

/-- C6 counterexample: with a *negative* requested budget `X = -1` and a
running parent with remaining 10, the spawned instance's remaining timeout
at spawn time is 0 (the running child timer clamps at zero), not
`min(-1, 10) = -1` as the unrestricted claim demands. -/
theorem claim_C6_counterexample :
    ((NormalWebDriverWait.init (0 : Nat) 10 0 Option.none true 0)._timer.timeout 0 = 10)
    ∧ ((NormalWebDriverWait.spawn 0 (NormalWebDriverWait.init (0 : Nat) 10 0 Option.none true 0)
          (some (-1)) Option.none Option.none 0)._timer.timeout 0 = 0)
    ∧ (min (-1 : Int) 10 = -1)
    ∧ ((0 : Int) ≠ -1) := by
  refine ⟨by decide, by decide, by omega, by decide⟩

end WaitThms

end ImperativeTiming
